import Mathlib

/-
Verification development for the Floresta pytest orchestration framework
(src/pytest/test_framework/__init__.py and src/pytest/bitcoin_rpc.py).

The Python code is shallowly embedded:
  - wall-clock time is discretized in deciseconds (one tick = the 0.1 s
    poll sleep of detect_ports); the 0.5 s grace period is 5 ticks and a
    timeout of t seconds is 10 * t ticks;
  - a log stream is a list of (arrival-tick, line) pairs in arrival order;
    reading past the end models readline returning an empty string forever;
  - randomness is an explicit list of seed draws consumed by random.randint;
  - the loopback connect probe of get_available_random_port is a predicate
    over ports (true means something is currently accepting connections);
  - fallible calls return Except values and side effects are traced as
    explicit event lists.
-/

namespace Floresta

/-! ### Regular-expression model

The port patterns of detect_ports all have the shape
  <literal text> [0-9.]+ <separator> (\d+)
optionally preceded by a greedy dot-star (the utreexod patterns).  Since
the separator never starts with a character of the class [0-9.], greedy
matching of the class run is exactly the maximal run, and re.search picks
the first position where the pattern matches (the last one when a greedy
dot-star prefix is present). -/

structure RePat where
  lit : List Char
  sep : List Char
  greedyDotStar : Bool
deriving DecidableEq

def digitsToNat (ds : List Char) : Nat :=
  ds.foldl (fun acc c => 10 * acc + (c.toNat - 48)) 0

def classRunChar (c : Char) : Bool :=
  c.isDigit || c == '.'

/-- Try the pattern anchored at the start of the given character suffix:
literal text, then a maximal nonempty run of [0-9.], then the separator,
then a nonempty capture of digits parsed as a Nat. -/
def reMatchAt (p : RePat) (cs : List Char) : Option Nat :=
  if p.lit.isPrefixOf cs then
    let r1 := cs.drop p.lit.length
    let run := r1.takeWhile classRunChar
    let r2 := r1.drop run.length
    if run.isEmpty then none
    else if p.sep.isPrefixOf r2 then
      let r3 := r2.drop p.sep.length
      let digs := r3.takeWhile Char.isDigit
      if digs.isEmpty then none else some (digitsToNat digs)
    else none
  else none

/-- All successful anchored matches, by start position left to right. -/
def reSearchAll (p : RePat) : List Char → List Nat
  | [] => []
  | c :: rest =>
    (match reMatchAt p (c :: rest) with
     | some v => [v]
     | none => []) ++ reSearchAll p rest

/-- Model of pattern.search(line).group(1) followed by int(...): first
match for plain patterns, last match when the pattern starts with a
greedy dot-star. -/
def reSearch (p : RePat) (line : String) : Option Nat :=
  let ms := reSearchAll p line.data
  if p.greedyDotStar then ms.getLast? else ms.head?

/-! ### Pattern tables of detect_ports -/

def florestadRpcPat : RePat :=
  ⟨"RPC server is running at ".data, ":".data, false⟩

def florestadElectrumPat : RePat :=
  ⟨"Electrum Server is running at ".data, ":".data, false⟩

def florestadElectrumTlsPat : RePat :=
  ⟨"Electrum TLS Server is running at ".data, ":".data, false⟩

def florestadRequired : List (String × RePat) :=
  [("rpc", florestadRpcPat), ("electrum-server", florestadElectrumPat)]

def florestadOptional : List (String × RePat) :=
  [("electrum-server-tls", florestadElectrumTlsPat)]

def utreexodRequired : List (String × RePat) :=
  [("rpc", ⟨"RPCS: RPC server listening on ".data, ":".data, true⟩),
   ("p2p", ⟨"CMGR: Server listening on ".data, ":".data, true⟩)]

def bitcoindRequired : List (String × RePat) :=
  [("rpc", ⟨"Binding RPC on address ".data, " port ".data, false⟩),
   ("p2p", ⟨"Bound to ".data, ":".data, false⟩)]

/-- Required pattern table of the mode dispatch in detect_ports. -/
def requiredTable (mode : String) : List (String × RePat) :=
  if mode == "florestad" then florestadRequired
  else if mode == "utreexod" then utreexodRequired
  else if mode == "bitcoind" then bitcoindRequired
  else []

/-- Optional pattern table of the mode dispatch in detect_ports: only the
florestad mode has an optional pattern. -/
def optionalTable (mode : String) : List (String × RePat) :=
  if mode == "florestad" then florestadOptional else []

/-! ### The detection loop -/

inductive DetectErr where
  | valueError (mode : String)
  | timeoutErr (names : List String)
deriving DecidableEq

def hasKey (ports : List (String × Nat)) (name : String) : Bool :=
  ports.any (fun kv => kv.1 == name)

/-- One pass of the for-loops of detect_ports over a freshly read line:
each pattern whose name is not yet recorded and whose regex matches the
line appends its parsed port (Python dict insertion order). -/
def scanPatterns (pats : List (String × RePat)) (line : String)
    (ports : List (String × Nat)) : List (String × Nat) :=
  pats.foldl
    (fun acc np =>
      if hasKey acc np.1 then acc
      else
        match reSearch np.2 line with
        | some v => acc ++ [(np.1, v)]
        | none => acc)
    ports

/-- The while-loop of detect_ports.  The loop guard is
time.time() - start_time <= timeout; a line with arrival tick t is read
at tick max(current, t) because each empty readline sleeps one tick, and
when the stream is exhausted no further line can ever arrive, so the loop
can only run the clock out and raise the timeout error. -/
def detectLoop (required optPats : List (String × RePat)) (timeoutDs : Nat) :
    List (Nat × String) → Nat → List (String × Nat) → Option Nat →
    Except DetectErr (List (String × Nat))
  | [], _, _, _ => .error (.timeoutErr (required.map Prod.fst))
  | (t, line) :: rest, time, ports, timeTls =>
    let rt := max time t
    if timeoutDs < rt then .error (.timeoutErr (required.map Prod.fst))
    else
      let ports1 := scanPatterns required line ports
      let ports2 := scanPatterns optPats line ports1
      if required.all (fun np => hasKey ports2 np.1) then
        if optPats.isEmpty then .ok ports2
        else
          match timeTls with
          | none => detectLoop required optPats timeoutDs rest rt ports2 (some rt)
          | some t0 =>
            if 5 ≤ rt - t0 then .ok ports2
            else detectLoop required optPats timeoutDs rest rt ports2 (some t0)
      else detectLoop required optPats timeoutDs rest rt ports2 timeTls

/-- FlorestaTestBase.detect_ports: mode dispatch (unsupported modes raise
ValueError before the loop), then the polling loop started at tick 0 with
no ports recorded; timeout is given in seconds and the stream holds the
lines appended after the initial seek to end-of-file. -/
def detect_ports (mode : String) (stream : List (Nat × String))
    (timeout : Nat) : Except DetectErr (List (String × Nat)) :=
  if mode == "florestad" || mode == "utreexod" || mode == "bitcoind" then
    detectLoop (requiredTable mode) (optionalTable mode) (10 * timeout)
      stream 0 [] none
  else .error (.valueError mode)

/-! ### Port allocation -/

inductive RandErr where
  | valueError
deriving DecidableEq

/-- random.randint(start, stop): raises ValueError on an empty (inverted)
range, otherwise returns a value in [start, stop] determined by the seed. -/
def randint (start stop seed : Nat) : Except RandErr Nat :=
  if stop < start then .error .valueError
  else .ok (start + seed % (stop + 1 - start))

/-- FlorestaTestBase.get_available_random_port: loop drawing a random port
in [start, stop] until the loopback connect probe fails (port unbound).
The draw list is the prefix of the random stream made explicit; ok none
means the while-True loop is still running when the given draws run out.
On success the remaining draws are returned alongside the port. -/
def get_available_random_port (bound : Nat → Bool) (start stop : Nat) :
    List Nat → Except RandErr (Option (Nat × List Nat))
  | [] => .ok none
  | seed :: seeds =>
    match randint start stop seed with
    | .error e => .error e
    | .ok port =>
      if bound port then get_available_random_port bound start stop seeds
      else .ok (some (port, seeds))

/-! ### Filesystem and TLS provisioning

Paths are segment lists (os.path.join appends segments; on the clean
inputs used here os.path.normpath and abspath leave the joined path
unchanged).  The filesystem is an association list from path to content;
writing prepends and lookup takes the first hit, so a write replaces. -/

abbrev FPath := List String

abbrev FS := List (FPath × String)

def fsLookup (fs : FS) (p : FPath) : Option String :=
  match fs with
  | [] => none
  | kv :: rest => if kv.1 = p then some kv.2 else fsLookup rest p

def fsWrite (fs : FS) (p : FPath) (content : String) : FS :=
  (p, content) :: fs

/-- Modelled from the spec: create_pkcs8_private_key lives in
test_framework.crypto.pkcs8, which is not among the sources.  Per spec
§4.2 the provisioner writes the key to a deterministic filename inside
the directory and, when the artifact already exists, reuses it rather
than regenerating it.  The freshKey argument stands for the key material
that would be generated on a miss. -/
def create_pkcs8_private_key (dir : FPath) (freshKey : String) (fs : FS) :
    FPath × String × FS :=
  let path := dir ++ ["key.pem"]
  match fsLookup fs path with
  | some existing => (path, existing, fs)
  | none => (path, freshKey, fsWrite fs path freshKey)

/-- Modelled from the spec: create_pkcs8_self_signed_certificate lives in
test_framework.crypto.pkcs8, which is not among the sources.  Per spec
§4.2 the certificate is self-signed with a fixed common name and validity
window, written to a deterministic filename inside the directory, and
reused when it already exists.  The freshCert argument stands for the
certificate material generated on a miss. -/
def create_pkcs8_self_signed_certificate (dir : FPath) (privateKey : String)
    (commonName : String) (validityDays : Nat) (freshCert : String)
    (fs : FS) : FPath × FS :=
  let path := dir ++ ["cert.pem"]
  match fsLookup fs path with
  | some _ => (path, fs)
  | none =>
    (path,
     fsWrite fs path
       (commonName ++ "/" ++ Nat.repr validityDays ++ "/" ++ privateKey
         ++ "/" ++ freshCert))

/-- FlorestaTestBase.create_tls_key_cert: resolves the per-test TLS
directory root/data/tls, provisions the PKCS#8 key there, then the
self-signed certificate (common name florestad, 365 days), and returns
both paths. -/
def create_tls_key_cert (root : FPath) (freshKey freshCert : String)
    (fs : FS) : FPath × FPath × FS :=
  let tls_path := root ++ ["data", "tls"]
  let r1 := create_pkcs8_private_key tls_path freshKey fs
  let r2 := create_pkcs8_self_signed_certificate tls_path r1.2.1 "florestad"
    365 freshCert r1.2.2
  (r1.1, r2.1, r2.2)

/-! ### Daemon argument construction (florestad) -/

/-- FlorestaTestBase.is_option_set: some element of extra_args starts with
the option text. -/
def is_option_set (extra_args : List String) (opt : String) : Bool :=
  extra_args.any (fun arg => opt.isPrefixOf arg)

/-- FlorestaTestBase.create_data_dir_for_daemon, restricted to its effect
on default_args: when the data-dir flag is absent from extra_args the
default tempdir/data/testname is appended (directory creation itself is a
filesystem side effect with no bearing on the argument list). -/
def create_data_dir_args (data_dir_arg : String) (extra_args : List String)
    (tempdir testname : String) : List String :=
  if is_option_set extra_args data_dir_arg then []
  else [data_dir_arg ++ "=" ++ tempdir ++ "/data/" ++ testname]

/-- The shared shape of the florestad port defaults: when the option is
absent from extra_args, allocate a port in the given range and render the
flag; threads the unconsumed random draws. -/
def allocArgIfAbsent (extra_args : List String) (opt : String)
    (render : Nat → String) (bound : Nat → Bool) (start stop : Nat)
    (seeds : List Nat) : Except RandErr (Option (List String × List Nat)) :=
  if is_option_set extra_args opt then .ok (some ([], seeds))
  else
    match get_available_random_port bound start stop seeds with
    | .error e => .error e
    | .ok none => .ok none
    | .ok (some (port, rest)) => .ok (some ([render port], rest))

/-- FlorestaTestBase.setup_florestad_daemon, as the daemon settings list it
produces: default args (data dir, rpc address in [18443, 19443], electrum
address in [20001, 21001], and, with tls, the key/cert flags plus a TLS
electrum address in [20002, 21002]) followed by extra_args.  The tempdir
doubles as the integration-test root used by create_tls_key_cert. -/
def setup_florestad_daemon (tempdir testname : String)
    (extra_args : List String) (tls : Bool) (bound : Nat → Bool)
    (freshKey freshCert : String) (fs : FS) (seeds : List Nat) :
    Except RandErr (Option (List String × FS × List Nat)) :=
  match allocArgIfAbsent extra_args "--rpc-address"
      (fun p => "--rpc-address=127.0.0.1:" ++ Nat.repr p)
      bound 18443 19443 seeds with
  | .error e => .error e
  | .ok none => .ok none
  | .ok (some (rpcArgs, seeds1)) =>
    match allocArgIfAbsent extra_args "--electrum-address"
        (fun p => "--electrum-address=127.0.0.1:" ++ Nat.repr p)
        bound 20001 21001 seeds1 with
    | .error e => .error e
    | .ok none => .ok none
    | .ok (some (elArgs, seeds2)) =>
      if tls then
        let tlsRes := create_tls_key_cert [tempdir] freshKey freshCert fs
        match allocArgIfAbsent extra_args "--electrum-address-tls"
            (fun p => "--electrum-address-tls=127.0.0.1:" ++ Nat.repr p)
            bound 20002 21002 seeds2 with
        | .error e => .error e
        | .ok none => .ok none
        | .ok (some (tlsArgs, seeds3)) =>
          .ok (some
            (create_data_dir_args "--data-dir" extra_args tempdir testname
              ++ rpcArgs ++ elArgs
              ++ ["--enable-electrum-tls",
                  "--tls-key-path=" ++ String.intercalate "/" tlsRes.1,
                  "--tls-cert-path=" ++ String.intercalate "/" tlsRes.2.1]
              ++ tlsArgs ++ extra_args,
             tlsRes.2.2, seeds3))
      else
        .ok (some
          (create_data_dir_args "--data-dir" extra_args tempdir testname
            ++ rpcArgs ++ elArgs ++ extra_args,
           fs, seeds2))

/-! ### Node lifecycle

A Node owns a daemon handle and an RPC client.  The outcomes of the
external calls (daemon liveness, rpc.stop, wait_for_connections, process
wait) are part of the model state; start and stop return their Except
result together with the trace of effects actually performed. -/

inductive NodeEvent where
  | daemonSpawn
  | waitConnsOpen
  | rpcStopCall
  | waitConnsClose
  | procWait
deriving DecidableEq

inductive NodeErr where
  | alreadyRunning (variant : String)
  | rpcFailure (msg : String)
deriving DecidableEq

structure NodeL where
  variant : String
  is_running : Bool
  rpcStopRes : Except String String
  waitOpenRes : Except String Unit
  waitCloseRes : Except String Unit
  procWaitRes : Except String Unit

/-- Node.start: raise RuntimeError when the daemon is already running
(before any spawn), otherwise spawn the daemon and block on
rpc.wait_for_connections(opened=True). -/
def NodeL.start (n : NodeL) : Except NodeErr Unit × List NodeEvent :=
  if n.is_running then (.error (.alreadyRunning n.variant), [])
  else
    match n.waitOpenRes with
    | .error e =>
      (.error (.rpcFailure e), [NodeEvent.daemonSpawn, NodeEvent.waitConnsOpen])
    | .ok _ =>
      (.ok (), [NodeEvent.daemonSpawn, NodeEvent.waitConnsOpen])

/-- Node.stop: return None without any effect when the daemon is not
running; otherwise issue the stop RPC, wait for disconnection, wait for
process exit and return the RPC response.  There is no exception handler:
a failure anywhere in the chain propagates. -/
def NodeL.stop (n : NodeL) : Except NodeErr (Option String) × List NodeEvent :=
  if n.is_running then
    match n.rpcStopRes with
    | .error e => (.error (.rpcFailure e), [NodeEvent.rpcStopCall])
    | .ok resp =>
      match n.waitCloseRes with
      | .error e =>
        (.error (.rpcFailure e),
         [NodeEvent.rpcStopCall, NodeEvent.waitConnsClose])
      | .ok _ =>
        match n.procWaitRes with
        | .error e =>
          (.error (.rpcFailure e),
           [NodeEvent.rpcStopCall, NodeEvent.waitConnsClose,
            NodeEvent.procWait])
        | .ok _ =>
          (.ok (some resp),
           [NodeEvent.rpcStopCall, NodeEvent.waitConnsClose,
            NodeEvent.procWait])
  else (.ok none, [])

/-- Node.get_port: looking up an unknown port type raises a ValueError
naming the requested type and the full port mapping; a known type returns
its port.  The mapping is returned unchanged alongside the result, the
method being read-only on rpc_config. -/
structure PortTypeErr where
  port_type : String
  available : List (String × Nat)
deriving DecidableEq

def lookupPort : List (String × Nat) → String → Option Nat
  | [], _ => none
  | kv :: rest, k => if kv.1 == k then some kv.2 else lookupPort rest k

def NodeL.get_port (ports : List (String × Nat)) (port_type : String) :
    Except PortTypeErr Nat × List (String × Nat) :=
  match lookupPort ports port_type with
  | none => (.error ⟨port_type, ports⟩, ports)
  | some v => (.ok v, ports)

/-! ### Bulk teardown (FlorestaTestBase.stop_all_nodes) -/

inductive StopEvent where
  | collectPid (pid : Nat)
  | rpcStop (pid : Nat)
  | waitConns (pid : Nat)
  | sigSent (pid : Nat) (sig : String)
  | logged (variant msg : String)
deriving DecidableEq

structure RpcBehavior where
  stopRes : Except String String
  waitRes : Except String Unit

/-- One registered node as stop_all_nodes sees it: a daemon process id,
the optional RPC client (None before run_node), and the outcomes of the
SIGTERM and SIGKILL sends (send_kill_signal itself suppresses
ProcessLookupError; a some value is any other raised exception). -/
structure SNode where
  pid : Nat
  variant : String
  rpc : Option RpcBehavior
  termRaises : Option String
  killRaises : Option String

/-- The body of the stop_all_nodes loop for one node: with an RPC client,
stop then wait for disconnection, logging the first failure; without one,
send SIGTERM, falling back to SIGKILL if that raises, the outer handler
logging a SIGKILL failure. -/
def stopOneNode (n : SNode) : List StopEvent :=
  match n.rpc with
  | some r =>
    match r.stopRes with
    | .error e => [.rpcStop n.pid, .logged n.variant e]
    | .ok _ =>
      match r.waitRes with
      | .error e => [.rpcStop n.pid, .waitConns n.pid, .logged n.variant e]
      | .ok _ => [.rpcStop n.pid, .waitConns n.pid]
  | none =>
    match n.termRaises with
    | none => [.sigSent n.pid "SIGTERM"]
    | some _ =>
      match n.killRaises with
      | none => [.sigSent n.pid "SIGTERM", .sigSent n.pid "SIGKILL"]
      | some e =>
        [.sigSent n.pid "SIGTERM", .sigSent n.pid "SIGKILL",
         .logged n.variant e]

/-- FlorestaTestBase.stop_all_nodes: iterate the registered nodes in
order, collecting each pid and attempting the stop path of each; any
exception in one iteration is logged and the loop moves on. -/
def stop_all_nodes (nodes : List SNode) : List StopEvent :=
  nodes.foldl (fun acc n => acc ++ (.collectPid n.pid :: stopOneNode n)) []

/-! ### Bitcoind shutdown escalation (BitcoindDirectTest.stop_bitcoind) -/

inductive BEvent where
  | rpcStopCall
  | gracefulWaitOk
  | gracefulWaitTimeout
  | terminateSig
  | termWaitOk
  | termWaitTimeout
  | killSig
  | finalWaitOk
deriving DecidableEq

/-- How the external bitcoind process responds to the shutdown tiers:
whether it exits within the 15 s wait after the stop RPC and within the
10 s wait after SIGTERM.  SIGKILL is not ignorable, so the final untimed
wait always reaps. -/
structure BProc where
  exitsOnStop : Bool
  exitsOnTerm : Bool

structure BState where
  bitcoind_process : Option BProc
  rpcStopRaises : Bool

/-- The except branch of stop_bitcoind: terminate, wait up to 10 s, and
on a timeout kill and block until reaped. -/
def escalate (p : BProc) : List BEvent :=
  if p.exitsOnTerm then [BEvent.terminateSig, BEvent.termWaitOk]
  else
    [BEvent.terminateSig, BEvent.termWaitTimeout, BEvent.killSig,
     BEvent.finalWaitOk]

/-- BitcoindDirectTest.stop_bitcoind: nothing to do without a process;
otherwise try the stop RPC and a 15 s wait, and on any failure in that
pair run the terminate/kill escalation; finally clear the process
handle. -/
def stop_bitcoind (st : BState) : List BEvent × BState :=
  match st.bitcoind_process with
  | none => ([], st)
  | some p =>
    let trace :=
      if st.rpcStopRaises then BEvent.rpcStopCall :: escalate p
      else if p.exitsOnStop then [BEvent.rpcStopCall, BEvent.gracefulWaitOk]
      else BEvent.rpcStopCall :: BEvent.gracefulWaitTimeout :: escalate p
    (trace, { st with bitcoind_process := none })

/-- A trace reaps the process when some wait in it completed. -/
def reapedIn (tr : List BEvent) : Bool :=
  tr.any (fun e =>
    e == BEvent.gracefulWaitOk || e == BEvent.termWaitOk
      || e == BEvent.finalWaitOk)

/-! ## Helper lemmas -/

lemma hasKey_append_single (ports : List (String × Nat)) (k : String)
    (v : Nat) (name : String) :
    hasKey (ports ++ [(k, v)]) name = (hasKey ports name || (k == name)) := by
  simp [hasKey, List.any_append]

/-- A name absent from the recorded ports stays absent after a scan in
which no pattern carrying that name matches the line. -/
lemma scanPatterns_hasKey_false :
    ∀ (pats : List (String × RePat)) (line : String)
      (ports : List (String × Nat)) (name : String),
    hasKey ports name = false →
    (∀ p ∈ pats, p.1 = name → reSearch p.2 line = none) →
    hasKey (scanPatterns pats line ports) name = false
  | [], line, ports, name, hp, _ => by simpa [scanPatterns] using hp
  | p :: ps, line, ports, name, hp, hm => by
    simp only [scanPatterns, List.foldl_cons] at *
    have hstep :
        hasKey
          (if hasKey ports p.1 then ports
           else
             match reSearch p.2 line with
             | some v => ports ++ [(p.1, v)]
             | none => ports) name = false := by
      by_cases hk : hasKey ports p.1
      · simpa [hk] using hp
      · cases hsearch : reSearch p.2 line with
        | none => simpa [hk, hsearch] using hp
        | some v =>
          have hne : p.1 ≠ name := by
            intro h
            have := hm p (by simp) h
            simp [this] at hsearch
          simp [hk, hsearch, hasKey_append_single, hp, hne]
    exact scanPatterns_hasKey_false ps line _ name hstep
      (fun q hq hqn => hm q (by simp [hq]) hqn)

/-- When some required name matches no line of the stream, the detection
loop can never return a port mapping and ends in the timeout error that
carries every required name. -/
lemma detectLoop_missing_required :
    ∀ (stream : List (Nat × String)) (required optPats : List (String × RePat))
      (timeoutDs time : Nat) (ports : List (String × Nat))
      (timeTls : Option Nat) (name : String),
    name ∈ required.map Prod.fst →
    hasKey ports name = false →
    (∀ e ∈ stream, ∀ p ∈ required ++ optPats, p.1 = name →
      reSearch p.2 e.2 = none) →
    detectLoop required optPats timeoutDs stream time ports timeTls =
      .error (.timeoutErr (required.map Prod.fst))
  | [], _, _, _, _, _, _, _, _, _, _ => by simp [detectLoop]
  | (t, line) :: rest, required, optPats, timeoutDs, time, ports, timeTls,
      name, hmem, hports, hstream => by
    rw [detectLoop]
    by_cases hguard : timeoutDs < max time t
    · simp [hguard]
    · have h1 : hasKey (scanPatterns required line ports) name = false :=
        scanPatterns_hasKey_false _ _ _ _ hports
          (fun p hp hpn =>
            hstream (t, line) (by simp) p (List.mem_append_left _ hp) hpn)
      have h2 :
          hasKey
            (scanPatterns optPats line (scanPatterns required line ports))
            name = false :=
        scanPatterns_hasKey_false _ _ _ _ h1
          (fun p hp hpn =>
            hstream (t, line) (by simp) p (List.mem_append_right _ hp) hpn)
      have hall :
          (required.all (fun np =>
            hasKey
              (scanPatterns optPats line (scanPatterns required line ports))
              np.1)) = false := by
        obtain ⟨np, hnpmem, hnpfst⟩ := List.mem_map.mp hmem
        refine Bool.eq_false_iff.mpr fun hAll => ?_
        have hk := List.all_eq_true.mp hAll np hnpmem
        rw [hnpfst] at hk
        rw [h2] at hk
        exact Bool.false_ne_true hk
      have hrest :=
        detectLoop_missing_required rest required optPats timeoutDs
          (max time t)
          (scanPatterns optPats line (scanPatterns required line ports))
          timeTls name hmem h2
          (fun e he p hp hpn => hstream e (by simp [he]) p hp hpn)
      simp only [if_neg hguard, hall]
      simpa using hrest

lemma key_ne_cert (root : FPath) :
    root ++ ["data", "tls", "key.pem"] ≠ root ++ ["data", "tls", "cert.pem"] := by
  intro h
  have := List.append_cancel_left h
  simp at this

lemma fsLookup_write_self (fs : FS) (p : FPath) (c : String) :
    fsLookup (fsWrite fs p c) p = some c := by
  simp [fsWrite, fsLookup]

lemma fsLookup_write_other (fs : FS) (p q : FPath) (c : String) (h : p ≠ q) :
    fsLookup (fsWrite fs p c) q = fsLookup fs q := by
  simp [fsWrite, fsLookup, h]

/-! ## Claim theorems -/

/-- Claim C1 (code bug): with the florestad pattern set (which has an
optional pattern), a log that emits both required lines and then goes
silent makes detect_ports run the full 180 s timeout and raise the
TimeoutError instead of returning the collected mapping within the 0.5 s
grace period after the last required match at tick 12: the grace-period
return is only reachable after a successful readline, so a silent log
never triggers it.  The last two conjuncts check that both required
patterns really matched their lines. -/
theorem detect_ports_silent_log_after_required_times_out :
    detect_ports "florestad"
      [(10, "RPC server is running at 127.0.0.1:38332\n"),
       (12, "Electrum Server is running at 127.0.0.1:50001\n")] 180 =
      .error (.timeoutErr ["rpc", "electrum-server"]) ∧
    reSearch florestadRpcPat
      "RPC server is running at 127.0.0.1:38332\n" = some 38332 ∧
    reSearch florestadElectrumPat
      "Electrum Server is running at 127.0.0.1:50001\n" = some 50001 :=
  ⟨rfl, rfl, rfl⟩

/-- Claim C4 (counterexample): on a florestad log that contains only the
electrum line, the pattern named electrum-server matches (so only rpc is
still missing), yet the timeout error lists both required names, not
exactly the missing ones. -/
theorem detect_ports_timeout_error_names_matched_pattern :
    detect_ports "florestad"
      [(5, "Electrum Server is running at 127.0.0.1:50001\n")] 2 =
      .error (.timeoutErr ["rpc", "electrum-server"]) ∧
    reSearch florestadElectrumPat
      "Electrum Server is running at 127.0.0.1:50001\n" = some 50001 ∧
    "electrum-server" ∈ (["rpc", "electrum-server"] : List String) :=
  ⟨rfl, rfl, by decide⟩

/-- Claim C4 (amended): whenever some required pattern of the mode never
matches any line of the stream, detect_ports fails with the readiness
timeout error, and the names it carries are all the required pattern
names of the mode - the matched and the missing alike - since the raise
renders list(required_patterns) unchanged. -/
theorem detect_ports_timeout_lists_all_required (mode : String)
    (stream : List (Nat × String)) (timeout : Nat) (name : String)
    (hmem : name ∈ (requiredTable mode).map Prod.fst)
    (hnomatch : ∀ e ∈ stream,
      ∀ p ∈ requiredTable mode ++ optionalTable mode,
      p.1 = name → reSearch p.2 e.2 = none) :
    detect_ports mode stream timeout =
      .error (.timeoutErr ((requiredTable mode).map Prod.fst)) := by
  unfold detect_ports
  by_cases h :
      (mode == "florestad" || mode == "utreexod" || mode == "bitcoind") = true
  · rw [if_pos h]
    exact detectLoop_missing_required stream _ _ _ 0 [] none name hmem rfl
      hnomatch
  · exfalso
    simp only [Bool.or_eq_true, beq_iff_eq] at h
    push_neg at h
    obtain ⟨⟨h1, h2⟩, h3⟩ := h
    rw [requiredTable, if_neg (by simpa using h1), if_neg (by simpa using h2),
      if_neg (by simpa using h3)] at hmem
    simp at hmem

/-- Claim C4 witness: the amended theorem applied to a concrete florestad
log holding only the rpc line, with electrum-server as the missing
name. -/
theorem detect_ports_timeout_lists_all_required_witness :
    detect_ports "florestad"
      [(5, "RPC server is running at 127.0.0.1:38332\n")] 2 =
      .error (.timeoutErr ["rpc", "electrum-server"]) :=
  detect_ports_timeout_lists_all_required "florestad"
    [(5, "RPC server is running at 127.0.0.1:38332\n")] 2
    "electrum-server" (by decide) (by decide)

/-- Claim C2: create_tls_key_cert is idempotent per directory - a second
call on the same root returns the same key path and certificate path and
leaves the filesystem exactly as the first call left it, so existing
artifacts are never overwritten by newly generated material (the fresh
key/cert inputs of the second call are arbitrary and unused). -/
theorem create_tls_key_cert_idempotent (root : FPath) (k1 c1 k2 c2 : String)
    (fs : FS) :
    create_tls_key_cert root k2 c2 (create_tls_key_cert root k1 c1 fs).2.2 =
      create_tls_key_cert root k1 c1 fs := by
  have hne := key_ne_cert root
  cases hk : fsLookup fs (root ++ ["data", "tls", "key.pem"]) with
  | some k =>
    cases hc : fsLookup fs (root ++ ["data", "tls", "cert.pem"]) with
    | some c =>
      simp [create_tls_key_cert, create_pkcs8_private_key,
        create_pkcs8_self_signed_certificate, hk, hc]
    | none =>
      simp [create_tls_key_cert, create_pkcs8_private_key,
        create_pkcs8_self_signed_certificate, hk, hc,
        fsLookup_write_other _ _ _ _ (fun h => hne h.symm),
        fsLookup_write_self]
  | none =>
    cases hc : fsLookup fs (root ++ ["data", "tls", "cert.pem"]) with
    | some c =>
      simp [create_tls_key_cert, create_pkcs8_private_key,
        create_pkcs8_self_signed_certificate, hk, hc,
        fsLookup_write_other _ _ _ _ hne, fsLookup_write_self]
    | none =>
      simp [create_tls_key_cert, create_pkcs8_private_key,
        create_pkcs8_self_signed_certificate, hk, hc,
        fsLookup_write_other _ _ _ _ hne,
        fsLookup_write_other _ _ _ _ (fun h => hne h.symm),
        fsLookup_write_self]

/-- Claim C8: the port allocator never raises on a valid range, any port
it returns lies in [start, stop], and it raises the ValueError of
random.randint exactly when the range is inverted (and the loop body runs
at least once, which a nonempty draw list guarantees). -/
theorem get_available_random_port_spec :
    ∀ (seeds : List Nat) (bound : Nat → Bool) (start stop : Nat),
    (start ≤ stop →
      ∀ e, get_available_random_port bound start stop seeds ≠ .error e) ∧
    (∀ p rest,
      get_available_random_port bound start stop seeds = .ok (some (p, rest)) →
      start ≤ p ∧ p ≤ stop) ∧
    (stop < start → seeds ≠ [] →
      get_available_random_port bound start stop seeds = .error .valueError)
  | [], bound, start, stop => by
    refine ⟨fun _ e => ?_, fun p rest h => ?_, fun _ h => absurd rfl h⟩
    · simp [get_available_random_port]
    · simp [get_available_random_port] at h
  | seed :: seeds, bound, start, stop => by
    have ih := get_available_random_port_spec seeds bound start stop
    by_cases hrange : stop < start
    · refine ⟨fun hle _ => absurd hrange (by omega), fun p rest h => ?_,
        fun _ _ => ?_⟩
      · rw [get_available_random_port, randint, if_pos hrange] at h
        exact absurd h (by simp)
      · rw [get_available_random_port, randint, if_pos hrange]
    · have hm : 0 < stop + 1 - start := by omega
      by_cases hb : bound (start + seed % (stop + 1 - start))
      · refine ⟨fun hle e => ?_, fun p rest h => ?_,
          fun h _ => absurd h hrange⟩
        · rw [get_available_random_port, randint, if_neg hrange]
          simpa [hb] using ih.1 hle e
        · rw [get_available_random_port, randint, if_neg hrange] at h
          simp only [hb, if_true] at h
          exact ih.2.1 p rest h
      · refine ⟨fun hle e => ?_, fun p rest h => ?_,
          fun h _ => absurd h hrange⟩
        · rw [get_available_random_port, randint, if_neg hrange]
          simp [hb]
        · rw [get_available_random_port, randint, if_neg hrange] at h
          simp only [hb, Bool.false_eq_true, if_false, Except.ok.injEq,
            Option.some.injEq, Prod.mk.injEq] at h
          obtain ⟨hp, hrest⟩ := h
          have := Nat.mod_lt seed hm
          omega

/-- Claim C8 witness: the allocator applied to the florestad rpc range
with a free port, checked to land inside the range. -/
theorem get_available_random_port_spec_witness :
    get_available_random_port (fun _ => false) 18443 19443 [57] =
      .ok (some (18500, [])) ∧
    18443 ≤ 18500 ∧ 18500 ≤ 19443 :=
  ⟨rfl,
   (get_available_random_port_spec [57] (fun _ => false) 18443 19443).2.1
     18500 [] rfl⟩

/-- Claim C3 (counterexample): two florestad nodes set up back to back on
the same random stream, with no caller-specified ports and with neither
daemon yet bound to its port (the connect probe fails everywhere, as it
does until run_node starts the daemons), are handed the identical
rpc-address and electrum-address flags: the allocator keeps no record of
its own earlier allocations. -/
theorem setup_florestad_daemon_duplicate_ports :
    setup_florestad_daemon "/tmp/t" "x" [] false (fun _ => false) "k" "c" []
      [0, 0, 0, 0] =
      .ok (some (["--data-dir=/tmp/t/data/x",
        "--rpc-address=127.0.0.1:18443",
        "--electrum-address=127.0.0.1:20001"], [], [0, 0])) ∧
    setup_florestad_daemon "/tmp/t" "x" [] false (fun _ => false) "k" "c" []
      [0, 0] =
      .ok (some (["--data-dir=/tmp/t/data/x",
        "--rpc-address=127.0.0.1:18443",
        "--electrum-address=127.0.0.1:20001"], [], [])) :=
  ⟨rfl, rfl⟩

/-- Claim C3 (amended): port distinctness is only best effort - an
allocated port is never one that was accepting connections at allocation
time, so the second Node differs from any port already bound when it is
allocated, but nothing prevents equality with a port the system allocated
earlier that is not yet bound. -/
theorem get_available_random_port_never_bound :
    ∀ (seeds : List Nat) (bound : Nat → Bool) (start stop p : Nat)
      (rest : List Nat),
    get_available_random_port bound start stop seeds = .ok (some (p, rest)) →
    bound p = false ∧ ∀ q, bound q = true → p ≠ q
  | [], bound, start, stop, p, rest, h => by
    simp [get_available_random_port] at h
  | seed :: seeds, bound, start, stop, p, rest, h => by
    rw [get_available_random_port] at h
    cases hri : randint start stop seed with
    | error e => rw [hri] at h; exact absurd h (by simp)
    | ok port =>
      rw [hri] at h
      by_cases hb : bound port
      · simp only [hb, if_true] at h
        exact get_available_random_port_never_bound seeds bound start stop
          p rest h
      · simp only [hb, Bool.false_eq_true, if_false, Except.ok.injEq,
          Option.some.injEq, Prod.mk.injEq] at h
        obtain ⟨hp, hrest⟩ := h
        subst hp
        exact ⟨by simpa using hb,
          fun q hq hpq => by rw [hpq] at hb; simp [hq] at hb⟩

/-- Claim C3 witness: with port 18500 already bound, the allocation skips
it and the returned port 18443 is distinct from the bound one. -/
theorem get_available_random_port_never_bound_witness :
    (fun q => q == 18500) 18443 = false ∧ 18443 ≠ 18500 :=
  ⟨(get_available_random_port_never_bound [57, 0] (fun q => q == 18500)
      18443 19443 18443 [] rfl).1,
   (get_available_random_port_never_bound [57, 0] (fun q => q == 18500)
      18443 19443 18443 [] rfl).2 18500 rfl⟩

/-- Claim C7: Node.start on an already running daemon raises the
already-running error and performs no spawn, and the daemon spawn happens
exactly when the node was not running. -/
theorem node_start_no_double_spawn (n : NodeL) :
    (n.is_running = true →
      (NodeL.start n).1 = .error (.alreadyRunning n.variant) ∧
      NodeEvent.daemonSpawn ∉ (NodeL.start n).2) ∧
    (n.is_running = false →
      NodeEvent.daemonSpawn ∈ (NodeL.start n).2) := by
  constructor
  · intro h
    simp [NodeL.start, h]
  · intro h
    cases hw : n.waitOpenRes <;> simp [NodeL.start, h, hw]

/-- Claim C7 witness: a second start on a live florestad node fails
without a spawn event. -/
theorem node_start_no_double_spawn_witness :
    (NodeL.start ⟨"florestad", true, .ok "ok", .ok (), .ok (), .ok ()⟩).1 =
      .error (.alreadyRunning "florestad") ∧
    NodeEvent.daemonSpawn ∉
      (NodeL.start ⟨"florestad", true, .ok "ok", .ok (), .ok (), .ok ()⟩).2 :=
  (node_start_no_double_spawn _).1 rfl

/-- Claim C5 (counterexample): on a running node whose stop RPC fails,
Node.stop returns that failure to the caller after the bare rpc call -
no interrupt or kill signal is attempted and no fallback runs, because
the method body has no exception handler at all. -/
theorem node_stop_propagates_rpc_failure :
    NodeL.stop ⟨"florestad", true, .error "connection refused", .ok (),
      .ok (), .ok ()⟩ =
      (.error (.rpcFailure "connection refused"), [NodeEvent.rpcStopCall]) :=
  rfl

/-- Claim C5 (amended): Node.stop is a no-op returning None when the
daemon is not running; when running it issues the stop RPC, waits for
disconnection and process exit, and returns the RPC response - but any
failure along that chain propagates to the caller unchanged, with no
fallback to signal escalation inside Node.stop. -/
theorem node_stop_noop_or_propagates (n : NodeL) :
    (n.is_running = false → NodeL.stop n = (.ok none, [])) ∧
    (n.is_running = true → ∀ e, n.rpcStopRes = .error e →
      NodeL.stop n = (.error (.rpcFailure e), [NodeEvent.rpcStopCall])) ∧
    (n.is_running = true → ∀ resp, n.rpcStopRes = .ok resp →
      n.waitCloseRes = .ok () → n.procWaitRes = .ok () →
      NodeL.stop n = (.ok (some resp),
        [NodeEvent.rpcStopCall, NodeEvent.waitConnsClose,
         NodeEvent.procWait])) := by
  refine ⟨fun h => ?_, fun h e he => ?_, fun h resp hr hw hp => ?_⟩
  · simp [NodeL.stop, h]
  · simp [NodeL.stop, h, he]
  · simp [NodeL.stop, h, hr, hw, hp]

/-- Claim C5 witness: the amended theorem applied to a running utreexod
node whose stop RPC is down. -/
theorem node_stop_noop_or_propagates_witness :
    NodeL.stop ⟨"utreexod", true, .error "rpc down", .ok (), .ok (),
      .ok ()⟩ =
      (.error (.rpcFailure "rpc down"), [NodeEvent.rpcStopCall]) :=
  (node_stop_noop_or_propagates _).2.1 rfl "rpc down" rfl

lemma lookupPort_eq_none_of_hasKey_false :
    ∀ (ports : List (String × Nat)) (k : String),
    hasKey ports k = false → lookupPort ports k = none
  | [], _, _ => rfl
  | kv :: rest, k, h => by
    simp only [hasKey, List.any_cons, Bool.or_eq_false_iff] at h
    obtain ⟨h1, h2⟩ := h
    simp only [lookupPort, h1, Bool.false_eq_true, if_false]
    exact lookupPort_eq_none_of_hasKey_false rest k h2

/-- Claim C10: Node.get_port raises the ValueError carrying the unknown
port type together with the whole available mapping when the type is not
a key, returns exactly the mapped port when it is, and in both cases
hands the port mapping back unchanged. -/
theorem node_get_port_spec (ports : List (String × Nat))
    (port_type : String) :
    (hasKey ports port_type = false →
      NodeL.get_port ports port_type = (.error ⟨ port_type, ports⟩, ports)) ∧
    (∀ v, lookupPort ports port_type = some v →
      NodeL.get_port ports port_type = (.ok v, ports)) := by
  constructor
  · intro h
    rw [NodeL.get_port, lookupPort_eq_none_of_hasKey_false ports port_type h]
  · intro v h
    rw [NodeL.get_port, h]

/-- Claim C10 witness: an unknown type p2p errors with the mapping, and
the known type rpc returns its port, the mapping surviving both. -/
theorem node_get_port_spec_witness :
    NodeL.get_port [("rpc", 18443)] "p2p" =
      (.error ⟨"p2p", [("rpc", 18443)]⟩, [("rpc", 18443)]) ∧
    NodeL.get_port [("rpc", 18443)] "rpc" = (.ok 18443, [("rpc", 18443)]) :=
  ⟨(node_get_port_spec [("rpc", 18443)] "p2p").1 rfl,
   (node_get_port_spec [("rpc", 18443)] "rpc").2 18443 rfl⟩

/-- The first stop-path action of the loop body for one node: the stop
RPC when an RPC client exists, the SIGTERM send otherwise. -/
def stopAttempt (n : SNode) : StopEvent :=
  match n.rpc with
  | some _ => .rpcStop n.pid
  | none => .sigSent n.pid "SIGTERM"

lemma stop_all_nodes_eq_flatMap :
    ∀ (nodes : List SNode) (acc : List StopEvent),
    nodes.foldl (fun a n => a ++ (.collectPid n.pid :: stopOneNode n)) acc =
      acc ++ nodes.flatMap (fun n => .collectPid n.pid :: stopOneNode n)
  | [], acc => by simp
  | n :: rest, acc => by
    simp only [List.foldl_cons, stop_all_nodes_eq_flatMap rest,
      List.flatMap_cons, List.append_assoc]

/-- Claim C6: stop_all_nodes attempts the stop path of every registered
node - the node segments appear in registration order inside the flat
event trace - and when the stop RPC of some node fails the failure is
logged for that node while every other node still gets its stop
attempt. -/
theorem stop_all_nodes_attempts_every_node (nodes : List SNode) (n : SNode)
    (hmem : n ∈ nodes) :
    stopAttempt n ∈ stop_all_nodes nodes ∧
    (∀ r e, n.rpc = some r → r.stopRes = .error e →
      StopEvent.logged n.variant e ∈ stop_all_nodes nodes) := by
  have hflat : stop_all_nodes nodes =
      nodes.flatMap (fun m => .collectPid m.pid :: stopOneNode m) := by
    simpa using stop_all_nodes_eq_flatMap nodes []
  constructor
  · rw [hflat]
    refine List.mem_flatMap.mpr ⟨n, hmem, ?_⟩
    cases hrpc : n.rpc with
    | some r =>
      cases hs : r.stopRes with
      | error e => simp [stopAttempt, stopOneNode, hrpc, hs]
      | ok v =>
        cases hw : r.waitRes with
        | error e => simp [stopAttempt, stopOneNode, hrpc, hs, hw]
        | ok u => simp [stopAttempt, stopOneNode, hrpc, hs, hw]
    | none =>
      cases ht : n.termRaises with
      | none => simp [stopAttempt, stopOneNode, hrpc, ht]
      | some msg =>
        cases hk : n.killRaises with
        | none => simp [stopAttempt, stopOneNode, hrpc, ht, hk]
        | some msg2 => simp [stopAttempt, stopOneNode, hrpc, ht, hk]
  · intro r e hrpc herr
    rw [hflat]
    refine List.mem_flatMap.mpr ⟨n, hmem, ?_⟩
    simp [stopOneNode, hrpc, herr]

/-- Claim C6 witness: three registered nodes with the second raising in
its stop RPC - the first and third are still attempted and the failure
of the second is logged. -/
theorem stop_all_nodes_attempts_every_node_witness :
    stopAttempt ⟨101, "florestad", some ⟨.ok "bye", .ok ()⟩, none, none⟩ ∈
      stop_all_nodes
        [⟨101, "florestad", some ⟨.ok "bye", .ok ()⟩, none, none⟩,
         ⟨102, "utreexod", some ⟨.error "boom", .ok ()⟩, none, none⟩,
         ⟨103, "bitcoind", none, none, none⟩] ∧
    stopAttempt ⟨103, "bitcoind", none, none, none⟩ ∈
      stop_all_nodes
        [⟨101, "florestad", some ⟨.ok "bye", .ok ()⟩, none, none⟩,
         ⟨102, "utreexod", some ⟨.error "boom", .ok ()⟩, none, none⟩,
         ⟨103, "bitcoind", none, none, none⟩] ∧
    StopEvent.logged "utreexod" "boom" ∈
      stop_all_nodes
        [⟨101, "florestad", some ⟨.ok "bye", .ok ()⟩, none, none⟩,
         ⟨102, "utreexod", some ⟨.error "boom", .ok ()⟩, none, none⟩,
         ⟨103, "bitcoind", none, none, none⟩] :=
  ⟨(stop_all_nodes_attempts_every_node _ _ (by simp)).1,
   (stop_all_nodes_attempts_every_node _
     ⟨103, "bitcoind", none, none, none⟩ (by simp)).1,
   (stop_all_nodes_attempts_every_node _
     ⟨102, "utreexod", some ⟨.error "boom", .ok ()⟩, none, none⟩
     (by simp)).2 ⟨.error "boom", .ok ()⟩ "boom" rfl rfl⟩

/-- Claim C9: in the stop_bitcoind escalation, a process that exits
within the graceful 15 s wait after a delivered stop RPC sees neither
terminate nor kill; a process ignoring both the stop request and SIGTERM
is always sent SIGKILL with the blocking reap as the very last action;
and every path through the escalation ends with the process reaped and
the handle cleared. -/
theorem stop_bitcoind_escalation (st : BState) (p : BProc)
    (hp : st.bitcoind_process = some p) :
    (st.rpcStopRaises = false → p.exitsOnStop = true →
      (stop_bitcoind st).1 = [BEvent.rpcStopCall, BEvent.gracefulWaitOk] ∧
      BEvent.terminateSig ∉ (stop_bitcoind st).1 ∧
      BEvent.killSig ∉ (stop_bitcoind st).1) ∧
    (p.exitsOnStop = false → p.exitsOnTerm = false →
      BEvent.killSig ∈ (stop_bitcoind st).1 ∧
      (stop_bitcoind st).1.getLast? = some BEvent.finalWaitOk) ∧
    (reapedIn (stop_bitcoind st).1 = true ∧
      (stop_bitcoind st).2.bitcoind_process = none) := by
  obtain ⟨proc, rr⟩ := st
  simp only at hp
  subst hp
  obtain ⟨eStop, eTerm⟩ := p
  cases rr <;> cases eStop <;> cases eTerm <;>
    simp [stop_bitcoind, escalate, reapedIn]

/-- Claim C9 witness: a cooperative process is reaped gracefully with no
kill, and a fully unresponsive one is killed. -/
theorem stop_bitcoind_escalation_witness :
    (stop_bitcoind ⟨some ⟨true, true⟩, false⟩).1 =
      [BEvent.rpcStopCall, BEvent.gracefulWaitOk] ∧
    BEvent.killSig ∉ (stop_bitcoind ⟨some ⟨true, true⟩, false⟩).1 ∧
    reapedIn (stop_bitcoind ⟨some ⟨true, true⟩, false⟩).1 = true ∧
    BEvent.killSig ∈ (stop_bitcoind ⟨some ⟨false, false⟩, false⟩).1 :=
  ⟨((stop_bitcoind_escalation ⟨some ⟨true, true⟩, false⟩ ⟨true, true⟩
      rfl).1 rfl rfl).1,
   ((stop_bitcoind_escalation ⟨some ⟨true, true⟩, false⟩ ⟨true, true⟩
      rfl).1 rfl rfl).2.2,
   (stop_bitcoind_escalation ⟨some ⟨true, true⟩, false⟩ ⟨true, true⟩
      rfl).2.2.1,
   ((stop_bitcoind_escalation ⟨some ⟨false, false⟩, false⟩ ⟨false, false⟩
      rfl).2.1 rfl rfl).1⟩

end Floresta
